import Mathlib

/-!
Shallow embedding of the elevator ride simulation engine
(`src/physics.js`, plus `getForceRelation` from `src/app.js`).
JavaScript numbers are modelled as real numbers; every local binding of the
source functions is hoisted to a top-level definition named after the
corresponding local variable so each can be reasoned about separately.
-/

namespace ElevatorSim

/-- The `direction` field of `SimulationConfig`: `"up" | "down"`. -/
inductive Direction where
  | up
  | down
deriving DecidableEq

/-- Motion phase tags: `"accelerating" | "cruising" | "decelerating" | "stopped"`. -/
inductive Phase where
  | accelerating
  | cruising
  | decelerating
  | stopped
deriving DecidableEq

/-- Sensation tags returned by `deriveSensation`: `"lighter" | "normal" | "heavier"`. -/
inductive Sensation where
  | lighter
  | normal
  | heavier
deriving DecidableEq

/-- Force-relation tags returned by `getForceRelation` in `src/app.js`: `"gt" | "lt" | "eq"`. -/
inductive ForceRelation where
  | gt
  | lt
  | eq
deriving DecidableEq

/-- Embeds `SimulationConfig` (src/physics.js lines 1-11). -/
structure SimulationConfig where
  direction : Direction
  startFloor : ℝ
  endFloor : ℝ
  floorHeightM : ℝ
  massKg : ℝ
  maxSpeedMps : ℝ
  accelMagMps2 : ℝ
  gMps2 : ℝ

/-- Embeds `RideSegment` (src/physics.js lines 13-21). -/
structure RideSegment where
  phase : Phase
  tStart : ℝ
  duration : ℝ
  y0 : ℝ
  v0 : ℝ
  a : ℝ

/-- Embeds `RideProfile`, the return shape of `buildRideProfile` (src/physics.js line 38). -/
structure RideProfile where
  segments : List RideSegment
  totalTime : ℝ
  totalDisplacement : ℝ
  vPeak : ℝ
  profileType : String

/-- Embeds `SimulationState` (src/physics.js lines 23-33). -/
structure SimulationState where
  t : ℝ
  y : ℝ
  v : ℝ
  a : ℝ
  phase : Phase
  fn : ℝ
  fg : ℝ
  sensation : Sensation

/-- Embeds `clamp(value, min, max) = Math.min(max, Math.max(min, value))`
(src/physics.js lines 202-204). -/
noncomputable def clamp (value lo hi : ℝ) : ℝ :=
  min hi (max lo value)

/-- Local `displacement` of `buildRideProfile` (src/physics.js line 41). -/
def displacementOf (c : SimulationConfig) : ℝ :=
  (c.endFloor - c.startFloor) * c.floorHeightM

/-- Local `directionSign` (src/physics.js line 42):
`Math.sign(displacement) || (direction === "up" ? 1 : -1)` — the `||` takes the
fallback exactly when `Math.sign` yields `0`, i.e. when the displacement is zero. -/
noncomputable def directionSignOf (c : SimulationConfig) : ℝ :=
  if 0 < displacementOf c then 1
  else if displacementOf c < 0 then -1
  else if c.direction = Direction.up then 1 else -1

/-- Local `distance` (src/physics.js line 43). -/
def distanceOf (c : SimulationConfig) : ℝ :=
  |displacementOf c|

/-- Local `aMag = Math.max(config.accelMagMps2, 0.05)` (src/physics.js line 44). -/
def aMagOf (c : SimulationConfig) : ℝ :=
  max c.accelMagMps2 0.05

/-- Local `vMax = Math.max(config.maxSpeedMps, 0.1)` (src/physics.js line 45). -/
def vMaxOf (c : SimulationConfig) : ℝ :=
  max c.maxSpeedMps 0.1

/-- Local `tToVmax = vMax / aMag` (src/physics.js line 47). -/
noncomputable def tToVmaxOf (c : SimulationConfig) : ℝ :=
  vMaxOf c / aMagOf c

/-- Local `dAccelToVmax = 0.5 * aMag * tToVmax * tToVmax` (src/physics.js line 48). -/
noncomputable def dAccelToVmaxOf (c : SimulationConfig) : ℝ :=
  0.5 * aMagOf c * tToVmaxOf c * tToVmaxOf c

/-- The branch condition `2 * dAccelToVmax <= distance` (src/physics.js line 57). -/
def trapCond (c : SimulationConfig) : Prop :=
  2 * dAccelToVmaxOf c ≤ distanceOf c

noncomputable instance (c : SimulationConfig) : Decidable (trapCond c) :=
  inferInstanceAs (Decidable (_ ≤ _))

/-- Local `profileType` (src/physics.js lines 58, 65). -/
noncomputable def profileTypeOf (c : SimulationConfig) : String :=
  if trapCond c then "trapezoidal" else "triangular"

/-- Local `tAccel` (src/physics.js lines 59, 66). -/
noncomputable def tAccelOf (c : SimulationConfig) : ℝ :=
  if trapCond c then tToVmaxOf c else Real.sqrt (distanceOf c / aMagOf c)

/-- Local `dAccel` (src/physics.js lines 60, 67); in the triangular branch it is
`0.5 * aMag * tAccel * tAccel` for the triangular `tAccel`. -/
noncomputable def dAccelOf (c : SimulationConfig) : ℝ :=
  if trapCond c then dAccelToVmaxOf c
  else 0.5 * aMagOf c * Real.sqrt (distanceOf c / aMagOf c) * Real.sqrt (distanceOf c / aMagOf c)

/-- Local `dCruise` (src/physics.js lines 61, 68). -/
noncomputable def dCruiseOf (c : SimulationConfig) : ℝ :=
  if trapCond c then distanceOf c - 2 * dAccelToVmaxOf c else 0

/-- Local `tCruise` (src/physics.js lines 62, 69). -/
noncomputable def tCruiseOf (c : SimulationConfig) : ℝ :=
  if trapCond c then (distanceOf c - 2 * dAccelToVmaxOf c) / vMaxOf c else 0

/-- Local `vPeak` (src/physics.js lines 63, 70). -/
noncomputable def vPeakOf (c : SimulationConfig) : ℝ :=
  if trapCond c then vMaxOf c else aMagOf c * Real.sqrt (distanceOf c / aMagOf c)

/-- Embeds `buildRideProfile(config)` (src/physics.js lines 40-113): the three segments
pushed in order, then the profile record. `a1 = directionSign * aMag`,
`a3 = -directionSign * aMag` (lines 73-74). -/
noncomputable def buildRideProfile (c : SimulationConfig) : RideProfile :=
  { segments :=
      [ { phase := Phase.accelerating
          tStart := 0
          duration := tAccelOf c
          y0 := 0
          v0 := 0
          a := directionSignOf c * aMagOf c },
        { phase := Phase.cruising
          tStart := tAccelOf c
          duration := tCruiseOf c
          y0 := directionSignOf c * dAccelOf c
          v0 := directionSignOf c * vPeakOf c
          a := 0 },
        { phase := Phase.decelerating
          tStart := tAccelOf c + tCruiseOf c
          duration := tAccelOf c
          y0 := directionSignOf c * (dAccelOf c + dCruiseOf c)
          v0 := directionSignOf c * vPeakOf c
          a := -directionSignOf c * aMagOf c } ]
    totalTime := 2 * tAccelOf c + tCruiseOf c
    totalDisplacement := displacementOf c
    vPeak := vPeakOf c
    profileType := profileTypeOf c }

/-- Embeds `deriveSensation(fn, fg)` (src/physics.js lines 179-184); the local
`tol = Math.max(0.02 * fg, 0.5)` is inlined. -/
noncomputable def deriveSensation (fn fg : ℝ) : Sensation :=
  if fn > fg + max (0.02 * fg) 0.5 then Sensation.heavier
  else if fn < fg - max (0.02 * fg) 0.5 then Sensation.lighter
  else Sensation.normal

/-- Embeds `withForces(state, massKg, fg)` (src/physics.js lines 163-172): note the
hardcoded `9.81` in `fn = Math.max(0, massKg * (9.81 + state.a))`. The partial
state is passed as its five fields, and the local `fn` is inlined. -/
noncomputable def withForces (t y v a : ℝ) (phase : Phase) (massKg fg : ℝ) :
    SimulationState :=
  { t := t, y := y, v := v, a := a, phase := phase
    fn := max 0 (massKg * (9.81 + a))
    fg := fg
    sensation := deriveSensation (max 0 (massKg * (9.81 + a))) fg }

/-- Stand-in for the out-of-bounds array access `profile.segments[2]` on a list
with fewer than three entries; unreachable for profiles built by
`buildRideProfile`, which always has exactly three segments. -/
def zeroSegment : RideSegment :=
  { phase := Phase.cruising, tStart := 0, duration := 0, y0 := 0, v0 := 0, a := 0 }

/-- Embeds `profile.segments.find((seg) => clampedT < seg.tStart + seg.duration)`
(src/physics.js line 139), as explicit recursion over the segment list. -/
noncomputable def findSegment (segs : List RideSegment) (t : ℝ) : Option RideSegment :=
  match segs with
  | [] => none
  | seg :: rest => if t < seg.tStart + seg.duration then some seg else findSegment rest t

/-- The local `segment` of `sampleStateAtTime` (src/physics.js line 139):
`profile.segments.find((seg) => clampedT < seg.tStart + seg.duration) || profile.segments[2]`. -/
noncomputable def sampleSegment (profile : RideProfile) (clampedT : ℝ) : RideSegment :=
  (findSegment profile.segments clampedT).getD (profile.segments.getD 2 zeroSegment)

/-- Embeds `sampleStateAtTime(profile, t, config)` (src/physics.js lines 121-155). -/
noncomputable def sampleStateAtTime (profile : RideProfile) (t : ℝ)
    (c : SimulationConfig) : SimulationState :=
  let clampedT := clamp t 0 profile.totalTime
  let fg := c.massKg * c.gMps2
  if clampedT ≥ profile.totalTime then
    withForces clampedT profile.totalDisplacement 0 0 Phase.stopped c.massKg fg
  else
    let segment := sampleSegment profile clampedT
    let dt := clampedT - segment.tStart
    withForces clampedT (segment.y0 + segment.v0 * dt + 0.5 * segment.a * dt * dt)
      (segment.v0 + segment.a * dt) segment.a segment.phase c.massKg fg

/-- Embeds `normalForce(m, g, a)` (src/physics.js lines 192-194): the exported helper
that does take gravity as a parameter (unused by `withForces`). -/
def normalForce (m g a : ℝ) : ℝ :=
  m * (g + a)

/-- Embeds `getForceRelation(fn, fg)` (src/app.js lines 237-242). -/
noncomputable def getForceRelation (fn fg : ℝ) : ForceRelation :=
  let tol := max (0.02 * fg) 0.5
  if fn > fg + tol then ForceRelation.gt
  else if fn < fg - tol then ForceRelation.lt
  else ForceRelation.eq

/-! ### Basic facts about the profile builder's internal quantities -/

lemma aMag_pos (c : SimulationConfig) : 0 < aMagOf c :=
  lt_of_lt_of_le (by norm_num) (le_max_right _ _)

lemma vMax_pos (c : SimulationConfig) : 0 < vMaxOf c :=
  lt_of_lt_of_le (by norm_num) (le_max_right _ _)

lemma distance_nonneg (c : SimulationConfig) : 0 ≤ distanceOf c :=
  abs_nonneg _

lemma tToVmax_pos (c : SimulationConfig) : 0 < tToVmaxOf c :=
  div_pos (vMax_pos c) (aMag_pos c)

lemma tAccel_nonneg (c : SimulationConfig) : 0 ≤ tAccelOf c := by
  unfold tAccelOf
  split
  · exact (tToVmax_pos c).le
  · exact Real.sqrt_nonneg _

lemma tCruise_nonneg (c : SimulationConfig) : 0 ≤ tCruiseOf c := by
  unfold tCruiseOf
  split
  · have h : 2 * dAccelToVmaxOf c ≤ distanceOf c := ‹trapCond c›
    exact div_nonneg (by linarith) (vMax_pos c).le
  · exact le_refl 0

lemma totalTime_nonneg (c : SimulationConfig) :
    0 ≤ (buildRideProfile c).totalTime := by
  show 0 ≤ 2 * tAccelOf c + tCruiseOf c
  have h1 := tAccel_nonneg c
  have h2 := tCruise_nonneg c
  linarith

/-- In both branches, `dAccel = ½·aMag·tAccel²`. -/
lemma dAccel_eq (c : SimulationConfig) :
    dAccelOf c = 0.5 * aMagOf c * tAccelOf c * tAccelOf c := by
  unfold dAccelOf tAccelOf dAccelToVmaxOf
  split <;> rfl

/-- In both branches, `vPeak = aMag·tAccel`. -/
lemma vPeak_eq (c : SimulationConfig) :
    vPeakOf c = aMagOf c * tAccelOf c := by
  unfold vPeakOf tAccelOf tToVmaxOf
  split
  · rw [mul_comm (aMagOf c), div_mul_cancel₀ _ (aMag_pos c).ne']
  · rfl

/-- In both branches, the cruise distance is covered at `vPeak` in `tCruise`. -/
lemma vPeak_mul_tCruise (c : SimulationConfig) :
    vPeakOf c * tCruiseOf c = dCruiseOf c := by
  unfold vPeakOf tCruiseOf dCruiseOf
  split
  · rw [mul_comm, div_mul_cancel₀ _ (vMax_pos c).ne']
  · ring

lemma vPeak_nonneg (c : SimulationConfig) : 0 ≤ vPeakOf c := by
  rw [vPeak_eq]
  exact mul_nonneg (aMag_pos c).le (tAccel_nonneg c)

/-! ### Unfolding lemmas for the sampler -/

@[simp] lemma withForces_t (t y v a : ℝ) (ph : Phase) (m fg : ℝ) :
    (withForces t y v a ph m fg).t = t := rfl

@[simp] lemma withForces_y (t y v a : ℝ) (ph : Phase) (m fg : ℝ) :
    (withForces t y v a ph m fg).y = y := rfl

@[simp] lemma withForces_v (t y v a : ℝ) (ph : Phase) (m fg : ℝ) :
    (withForces t y v a ph m fg).v = v := rfl

@[simp] lemma withForces_a (t y v a : ℝ) (ph : Phase) (m fg : ℝ) :
    (withForces t y v a ph m fg).a = a := rfl

@[simp] lemma withForces_phase (t y v a : ℝ) (ph : Phase) (m fg : ℝ) :
    (withForces t y v a ph m fg).phase = ph := rfl

@[simp] lemma withForces_fn (t y v a : ℝ) (ph : Phase) (m fg : ℝ) :
    (withForces t y v a ph m fg).fn = max 0 (m * (9.81 + a)) := rfl

@[simp] lemma withForces_fg (t y v a : ℝ) (ph : Phase) (m fg : ℝ) :
    (withForces t y v a ph m fg).fg = fg := rfl

lemma build_totalTime (c : SimulationConfig) :
    (buildRideProfile c).totalTime = 2 * tAccelOf c + tCruiseOf c := rfl

lemma build_totalDisplacement (c : SimulationConfig) :
    (buildRideProfile c).totalDisplacement = displacementOf c := rfl

lemma build_vPeak (c : SimulationConfig) :
    (buildRideProfile c).vPeak = vPeakOf c := rfl

/-- The terminal branch of `sampleStateAtTime` (src/physics.js lines 125-137). -/
lemma sample_of_ge (p : RideProfile) (t : ℝ) (c : SimulationConfig)
    (h : clamp t 0 p.totalTime ≥ p.totalTime) :
    sampleStateAtTime p t c =
      withForces (clamp t 0 p.totalTime) p.totalDisplacement 0 0 Phase.stopped
        c.massKg (c.massKg * c.gMps2) := by
  simp only [sampleStateAtTime]
  rw [if_pos h]

/-- The in-ride branch of `sampleStateAtTime` (src/physics.js lines 139-154). -/
lemma sample_of_lt (p : RideProfile) (t : ℝ) (c : SimulationConfig)
    (h : ¬ clamp t 0 p.totalTime ≥ p.totalTime) :
    sampleStateAtTime p t c =
      withForces (clamp t 0 p.totalTime)
        ((sampleSegment p (clamp t 0 p.totalTime)).y0
          + (sampleSegment p (clamp t 0 p.totalTime)).v0
            * (clamp t 0 p.totalTime - (sampleSegment p (clamp t 0 p.totalTime)).tStart)
          + 0.5 * (sampleSegment p (clamp t 0 p.totalTime)).a
            * (clamp t 0 p.totalTime - (sampleSegment p (clamp t 0 p.totalTime)).tStart)
            * (clamp t 0 p.totalTime - (sampleSegment p (clamp t 0 p.totalTime)).tStart))
        ((sampleSegment p (clamp t 0 p.totalTime)).v0
          + (sampleSegment p (clamp t 0 p.totalTime)).a
            * (clamp t 0 p.totalTime - (sampleSegment p (clamp t 0 p.totalTime)).tStart))
        (sampleSegment p (clamp t 0 p.totalTime)).a
        (sampleSegment p (clamp t 0 p.totalTime)).phase
        c.massKg (c.massKg * c.gMps2) := by
  simp only [sampleStateAtTime]
  rw [if_neg h]

/-- For a built profile, the clamp condition of the terminal branch is
equivalent to `max 0 t ≥ totalTime`. -/
lemma clamp_ge_iff (c : SimulationConfig) (t : ℝ) :
    (clamp t 0 (buildRideProfile c).totalTime ≥ (buildRideProfile c).totalTime) ↔
      max 0 t ≥ (buildRideProfile c).totalTime := by
  unfold clamp
  rw [ge_iff_le, le_min_iff]
  constructor
  · exact fun h => h.2
  · exact fun h => ⟨le_refl _, h⟩

/-- Whatever segment the sampler selects from a built profile, its phase is one
of the three moving phases. -/
lemma sampleSegment_phase (c : SimulationConfig) (x : ℝ) :
    (sampleSegment (buildRideProfile c) x).phase = Phase.accelerating ∨
    (sampleSegment (buildRideProfile c) x).phase = Phase.cruising ∨
    (sampleSegment (buildRideProfile c) x).phase = Phase.decelerating := by
  unfold sampleSegment buildRideProfile
  simp only [findSegment]
  split_ifs <;> simp [List.getD, Option.getD]

/-! ### Characterization of the sensation band -/

lemma deriveSensation_eq_heavier_iff (fn fg : ℝ) :
    deriveSensation fn fg = Sensation.heavier ↔ fn > fg + max (0.02 * fg) 0.5 := by
  unfold deriveSensation
  split_ifs with h1 h2
  · exact ⟨fun _ => h1, fun _ => rfl⟩
  · exact ⟨fun h => absurd h (by decide), fun h => absurd h h1⟩
  · exact ⟨fun h => absurd h (by decide), fun h => absurd h h1⟩

lemma deriveSensation_eq_lighter_iff (fn fg : ℝ) :
    deriveSensation fn fg = Sensation.lighter ↔ fn < fg - max (0.02 * fg) 0.5 := by
  have htol : (0.5 : ℝ) ≤ max (0.02 * fg) 0.5 := le_max_right _ _
  unfold deriveSensation
  split_ifs with h1 h2
  · exact ⟨fun h => absurd h (by decide), fun h => by linarith⟩
  · exact ⟨fun _ => h2, fun _ => rfl⟩
  · exact ⟨fun h => absurd h (by decide), fun h => absurd h h2⟩

lemma deriveSensation_eq_normal_iff (fn fg : ℝ) :
    deriveSensation fn fg = Sensation.normal ↔
      fn ≤ fg + max (0.02 * fg) 0.5 ∧ fg - max (0.02 * fg) 0.5 ≤ fn := by
  unfold deriveSensation
  split_ifs with h1 h2
  · exact ⟨fun h => absurd h (by decide), fun hc => absurd h1 (not_lt.mpr hc.1)⟩
  · exact ⟨fun h => absurd h (by decide), fun hc => absurd h2 (not_lt.mpr hc.2)⟩
  · exact ⟨fun _ => ⟨not_lt.mp h1, not_lt.mp h2⟩, fun _ => rfl⟩

/-! ### Claim theorems -/

/-- C6: for every pair of reals `(fn, fg)`, with `tol = max(0.02 × fg, 0.5)`,
`deriveSensation` returns `heavier` exactly when `fn > fg + tol`, `lighter`
exactly when `fn < fg − tol`, and `normal` otherwise; and for positive `fg`
large enough that the 2% band exceeds 0.5, `deriveSensation fg fg = normal`,
`deriveSensation (1.5·fg) fg = heavier`, `deriveSensation (0.5·fg) fg = lighter`
and `deriveSensation (1.01·fg) fg = normal`. -/
theorem C6_sensation_band (fn fg : ℝ) :
    (deriveSensation fn fg = Sensation.heavier ↔ fn > fg + max (0.02 * fg) 0.5) ∧
    (deriveSensation fn fg = Sensation.lighter ↔ fn < fg - max (0.02 * fg) 0.5) ∧
    (deriveSensation fn fg = Sensation.normal ↔
      fn ≤ fg + max (0.02 * fg) 0.5 ∧ fg - max (0.02 * fg) 0.5 ≤ fn) ∧
    (0.5 < 0.02 * fg →
      deriveSensation fg fg = Sensation.normal ∧
      deriveSensation (1.5 * fg) fg = Sensation.heavier ∧
      deriveSensation (0.5 * fg) fg = Sensation.lighter ∧
      deriveSensation (1.01 * fg) fg = Sensation.normal) := by
  refine ⟨deriveSensation_eq_heavier_iff fn fg, deriveSensation_eq_lighter_iff fn fg,
    deriveSensation_eq_normal_iff fn fg, fun h => ?_⟩
  have hm : max (0.02 * fg) 0.5 = 0.02 * fg := max_eq_left h.le
  have hfg : 0 < fg := by linarith
  refine ⟨?_, ?_, ?_, ?_⟩
  · rw [deriveSensation_eq_normal_iff, hm]
    constructor <;> linarith
  · rw [deriveSensation_eq_heavier_iff, hm]
    linarith
  · rw [deriveSensation_eq_lighter_iff, hm]
    linarith
  · rw [deriveSensation_eq_normal_iff, hm]
    constructor <;> linarith

/-- Witness for C6 at `fg = 100` (so the 2% band is 2, exceeding 0.5). -/
theorem C6_sensation_band_witness :
    (0.5 : ℝ) < 0.02 * 100 ∧
    deriveSensation (100 : ℝ) 100 = Sensation.normal ∧
    deriveSensation (1.5 * 100 : ℝ) 100 = Sensation.heavier ∧
    deriveSensation (0.5 * 100 : ℝ) 100 = Sensation.lighter ∧
    deriveSensation (1.01 * 100 : ℝ) 100 = Sensation.normal := by
  have h := (C6_sensation_band 0 100).2.2.2 (by norm_num)
  exact ⟨by norm_num, h.1, h.2.1, h.2.2.1, h.2.2.2⟩

/-- C7: for every pair of reals `(fn, fg)`, the presentation layer's
`getForceRelation` (src/app.js) agrees with the engine's `deriveSensation`:
`gt` exactly where `heavier`, `lt` exactly where `lighter`, `eq` exactly
where `normal`. -/
theorem C7_force_relation_agrees (fn fg : ℝ) :
    (getForceRelation fn fg = ForceRelation.gt ↔
      deriveSensation fn fg = Sensation.heavier) ∧
    (getForceRelation fn fg = ForceRelation.lt ↔
      deriveSensation fn fg = Sensation.lighter) ∧
    (getForceRelation fn fg = ForceRelation.eq ↔
      deriveSensation fn fg = Sensation.normal) := by
  unfold getForceRelation deriveSensation
  simp only [gt_iff_lt]
  split_ifs <;> simp

/-- C2: with `aMag = max(accelMagMps2, 0.05)`, `vMax = max(maxSpeedMps, 0.1)`,
`distance = |(endFloor − startFloor) × floorHeightM|` and
`dAccelToVmax = ½·aMag·(vMax/aMag)²`, `buildRideProfile` returns profile type
"trapezoidal" with `tAccel = vMax/aMag`, `tCruise = (distance − 2·dAccelToVmax)/vMax`
and `vPeak = vMax` exactly when `2·dAccelToVmax ≤ distance` (equality resolving
to trapezoidal), and otherwise "triangular" with `tAccel = sqrt(distance/aMag)`,
`tCruise = 0` and `vPeak = aMag·tAccel`. `tAccel` and `tCruise` are the
durations of the first and second segment. -/
theorem C2_profile_branches (c : SimulationConfig) :
    (2 * (0.5 * aMagOf c * (vMaxOf c / aMagOf c) * (vMaxOf c / aMagOf c)) ≤ distanceOf c →
      (buildRideProfile c).profileType = "trapezoidal" ∧
      ((buildRideProfile c).segments.getD 0 zeroSegment).duration = vMaxOf c / aMagOf c ∧
      ((buildRideProfile c).segments.getD 1 zeroSegment).duration =
        (distanceOf c - 2 * (0.5 * aMagOf c * (vMaxOf c / aMagOf c) * (vMaxOf c / aMagOf c)))
          / vMaxOf c ∧
      (buildRideProfile c).vPeak = vMaxOf c) ∧
    (¬ 2 * (0.5 * aMagOf c * (vMaxOf c / aMagOf c) * (vMaxOf c / aMagOf c)) ≤ distanceOf c →
      (buildRideProfile c).profileType = "triangular" ∧
      ((buildRideProfile c).segments.getD 0 zeroSegment).duration =
        Real.sqrt (distanceOf c / aMagOf c) ∧
      ((buildRideProfile c).segments.getD 1 zeroSegment).duration = 0 ∧
      (buildRideProfile c).vPeak =
        aMagOf c * Real.sqrt (distanceOf c / aMagOf c)) := by
  have hd : dAccelToVmaxOf c
      = 0.5 * aMagOf c * (vMaxOf c / aMagOf c) * (vMaxOf c / aMagOf c) := rfl
  constructor
  · intro h
    have hp : trapCond c := by rw [trapCond, hd]; exact h
    refine ⟨?_, ?_, ?_, ?_⟩
    · show profileTypeOf c = "trapezoidal"
      rw [profileTypeOf, if_pos hp]
    · show tAccelOf c = vMaxOf c / aMagOf c
      rw [tAccelOf, if_pos hp, tToVmaxOf]
    · show tCruiseOf c = _
      rw [tCruiseOf, if_pos hp, hd]
    · show vPeakOf c = vMaxOf c
      rw [vPeakOf, if_pos hp]
  · intro h
    have hp : ¬ trapCond c := by rw [trapCond, hd]; exact h
    refine ⟨?_, ?_, ?_, ?_⟩
    · show profileTypeOf c = "triangular"
      rw [profileTypeOf, if_neg hp]
    · show tAccelOf c = Real.sqrt (distanceOf c / aMagOf c)
      rw [tAccelOf, if_neg hp]
    · show tCruiseOf c = 0
      rw [tCruiseOf, if_neg hp]
    · show vPeakOf c = aMagOf c * Real.sqrt (distanceOf c / aMagOf c)
      rw [vPeakOf, if_neg hp]

/-- C4: for every config, the profile has exactly 3 segments, in the fixed
order accelerating / cruising / decelerating; their intervals tile
`[0, totalTime]` (consecutive start times, non-negative durations, ending at
`totalTime`), and at each internal boundary the position and velocity computed
from the earlier segment's kinematic formula equal the later segment's
`y0` and `v0`. -/
theorem C4_segment_tiling_continuity (c : SimulationConfig) :
    ∃ s1 s2 s3 : RideSegment,
      (buildRideProfile c).segments = [s1, s2, s3] ∧
      s1.phase = Phase.accelerating ∧
      s2.phase = Phase.cruising ∧
      s3.phase = Phase.decelerating ∧
      s1.tStart = 0 ∧
      0 ≤ s1.duration ∧ 0 ≤ s2.duration ∧ 0 ≤ s3.duration ∧
      s2.tStart = s1.tStart + s1.duration ∧
      s3.tStart = s2.tStart + s2.duration ∧
      s3.tStart + s3.duration = (buildRideProfile c).totalTime ∧
      s1.y0 + s1.v0 * s1.duration + 0.5 * s1.a * s1.duration * s1.duration = s2.y0 ∧
      s1.v0 + s1.a * s1.duration = s2.v0 ∧
      s2.y0 + s2.v0 * s2.duration + 0.5 * s2.a * s2.duration * s2.duration = s3.y0 ∧
      s2.v0 + s2.a * s2.duration = s3.v0 := by
  refine ⟨_, _, _, rfl, rfl, rfl, rfl, rfl,
    tAccel_nonneg c, tCruise_nonneg c, tAccel_nonneg c, ?_, rfl, ?_, ?_, ?_, ?_, ?_⟩
  · show tAccelOf c = 0 + tAccelOf c
    ring
  · show tAccelOf c + tCruiseOf c + tAccelOf c = 2 * tAccelOf c + tCruiseOf c
    ring
  · show 0 + 0 * tAccelOf c
        + 0.5 * (directionSignOf c * aMagOf c) * tAccelOf c * tAccelOf c
      = directionSignOf c * dAccelOf c
    rw [dAccel_eq]
    ring
  · show 0 + directionSignOf c * aMagOf c * tAccelOf c = directionSignOf c * vPeakOf c
    rw [vPeak_eq]
    ring
  · show directionSignOf c * dAccelOf c + directionSignOf c * vPeakOf c * tCruiseOf c
        + 0.5 * 0 * tCruiseOf c * tCruiseOf c
      = directionSignOf c * (dAccelOf c + dCruiseOf c)
    rw [← vPeak_mul_tCruise]
    ring
  · show directionSignOf c * vPeakOf c + 0 * tCruiseOf c = directionSignOf c * vPeakOf c
    ring

/-- C8: for two configs with swapped start/end floors and identical physical
parameters, the built profiles have identical `totalTime` and `vPeak` and
negated `totalDisplacement`. -/
theorem C8_reverse_symmetry (c1 c2 : SimulationConfig)
    (hse : c1.startFloor = c2.endFloor) (hes : c1.endFloor = c2.startFloor)
    (hf : c1.floorHeightM = c2.floorHeightM) (_hm : c1.massKg = c2.massKg)
    (hv : c1.maxSpeedMps = c2.maxSpeedMps) (ha : c1.accelMagMps2 = c2.accelMagMps2)
    (_hg : c1.gMps2 = c2.gMps2) :
    (buildRideProfile c1).totalTime = (buildRideProfile c2).totalTime ∧
    (buildRideProfile c1).vPeak = (buildRideProfile c2).vPeak ∧
    (buildRideProfile c1).totalDisplacement =
      -(buildRideProfile c2).totalDisplacement := by
  have hdisp : displacementOf c1 = -displacementOf c2 := by
    unfold displacementOf
    rw [hse, hes, hf]
    ring
  have hdist : distanceOf c1 = distanceOf c2 := by
    unfold distanceOf
    rw [hdisp, abs_neg]
  have haM : aMagOf c1 = aMagOf c2 := by unfold aMagOf; rw [ha]
  have hvM : vMaxOf c1 = vMaxOf c2 := by unfold vMaxOf; rw [hv]
  have htTV : tToVmaxOf c1 = tToVmaxOf c2 := by unfold tToVmaxOf; rw [haM, hvM]
  have hdATV : dAccelToVmaxOf c1 = dAccelToVmaxOf c2 := by
    unfold dAccelToVmaxOf
    rw [haM, htTV]
  have hcond : trapCond c1 ↔ trapCond c2 := by unfold trapCond; rw [hdATV, hdist]
  have htA : tAccelOf c1 = tAccelOf c2 := by
    unfold tAccelOf
    by_cases h : trapCond c1
    · rw [if_pos h, if_pos (hcond.mp h), htTV]
    · rw [if_neg h, if_neg ((not_congr hcond).mp h), hdist, haM]
  have htC : tCruiseOf c1 = tCruiseOf c2 := by
    unfold tCruiseOf
    by_cases h : trapCond c1
    · rw [if_pos h, if_pos (hcond.mp h), hdist, hdATV, hvM]
    · rw [if_neg h, if_neg ((not_congr hcond).mp h)]
  have hvP : vPeakOf c1 = vPeakOf c2 := by
    unfold vPeakOf
    by_cases h : trapCond c1
    · rw [if_pos h, if_pos (hcond.mp h), hvM]
    · rw [if_neg h, if_neg ((not_congr hcond).mp h), hdist, haM]
  refine ⟨?_, ?_, ?_⟩
  · rw [build_totalTime, build_totalTime, htA, htC]
  · rw [build_vPeak, build_vPeak, hvP]
  · rw [build_totalDisplacement, build_totalDisplacement, hdisp]

/-- C9: totality guards — the internal floors make both divisors strictly
positive, the square-root argument non-negative, `totalTime` non-negative, the
clamped sample time lands in `[0, totalTime]`, and the contact force returned
by the sampler is never negative, for every input. -/
theorem C9_totality_guards (c : SimulationConfig) (p : RideProfile) (t : ℝ) :
    0.05 ≤ aMagOf c ∧ 0 < aMagOf c ∧
    0.1 ≤ vMaxOf c ∧ 0 < vMaxOf c ∧
    0 ≤ distanceOf c / aMagOf c ∧
    0 ≤ (buildRideProfile c).totalTime ∧
    0 ≤ clamp t 0 (buildRideProfile c).totalTime ∧
    clamp t 0 (buildRideProfile c).totalTime ≤ (buildRideProfile c).totalTime ∧
    0 ≤ (sampleStateAtTime p t c).fn := by
  refine ⟨le_max_right _ _, aMag_pos c, le_max_right _ _, vMax_pos c,
    div_nonneg (distance_nonneg c) (aMag_pos c).le, totalTime_nonneg c, ?_, ?_, ?_⟩
  · exact le_min (totalTime_nonneg c) (le_max_left 0 t)
  · exact min_le_left _ _
  · by_cases h : clamp t 0 p.totalTime ≥ p.totalTime
    · rw [sample_of_ge p t c h, withForces_fn]
      exact le_max_left _ _
    · rw [sample_of_lt p t c h, withForces_fn]
      exact le_max_left _ _

/-- C3: for a built profile, the sampler reports `stopped` exactly when the
clamped query time has reached `totalTime`, i.e. when `max 0 t ≥ totalTime`;
for non-negative query times this is exactly `t ≥ totalTime` as the claim
states, and in the stopped case `y = totalDisplacement`, `v = 0`, `a = 0`. -/
theorem C3_stopped_iff (c : SimulationConfig) (t : ℝ) :
    ((sampleStateAtTime (buildRideProfile c) t c).phase = Phase.stopped ↔
      max 0 t ≥ (buildRideProfile c).totalTime) ∧
    (0 ≤ t →
      ((sampleStateAtTime (buildRideProfile c) t c).phase = Phase.stopped ↔
        t ≥ (buildRideProfile c).totalTime)) ∧
    (max 0 t ≥ (buildRideProfile c).totalTime →
      (sampleStateAtTime (buildRideProfile c) t c).y =
          (buildRideProfile c).totalDisplacement ∧
      (sampleStateAtTime (buildRideProfile c) t c).v = 0 ∧
      (sampleStateAtTime (buildRideProfile c) t c).a = 0) := by
  have hiff := clamp_ge_iff c t
  have main : (sampleStateAtTime (buildRideProfile c) t c).phase = Phase.stopped ↔
      max 0 t ≥ (buildRideProfile c).totalTime := by
    by_cases h : clamp t 0 (buildRideProfile c).totalTime ≥ (buildRideProfile c).totalTime
    · rw [sample_of_ge _ _ _ h, withForces_phase]
      exact iff_of_true rfl (hiff.mp h)
    · rw [sample_of_lt _ _ _ h, withForces_phase]
      refine iff_of_false ?_ ((not_congr hiff).mp h)
      rcases sampleSegment_phase c (clamp t 0 (buildRideProfile c).totalTime)
        with h1 | h1 | h1 <;> rw [h1] <;> decide
  refine ⟨main, fun ht => ?_, fun h => ?_⟩
  · rw [main, max_eq_right ht]
  · have h' := hiff.mpr h
    refine ⟨?_, ?_, ?_⟩ <;> rw [sample_of_ge _ _ _ h'] <;> rfl

/-- If a built profile has positive total time, its acceleration segment has
positive duration. -/
lemma tAccel_pos_of_totalTime_pos (c : SimulationConfig)
    (h : 0 < (buildRideProfile c).totalTime) : 0 < tAccelOf c := by
  rw [build_totalTime] at h
  by_cases hc : trapCond c
  · rw [tAccelOf, if_pos hc]
    exact tToVmax_pos c
  · have htC : tCruiseOf c = 0 := by rw [tCruiseOf, if_neg hc]
    rw [htC] at h
    linarith

lemma clamp_zero (c : SimulationConfig) :
    clamp 0 0 (buildRideProfile c).totalTime = 0 := by
  unfold clamp
  rw [max_self, min_eq_right (totalTime_nonneg c)]

/-- When the acceleration segment has positive duration, sampling at clamped
time 0 selects the first segment. -/
lemma sampleSegment_at_zero (c : SimulationConfig) (h : 0 < tAccelOf c) :
    sampleSegment (buildRideProfile c) 0 =
      { phase := Phase.accelerating, tStart := 0, duration := tAccelOf c,
        y0 := 0, v0 := 0, a := directionSignOf c * aMagOf c } := by
  unfold sampleSegment buildRideProfile
  simp only [findSegment]
  rw [if_pos (by linarith : (0 : ℝ) < 0 + tAccelOf c)]
  rfl

lemma directionSign_pos (c : SimulationConfig) (h : 0 < displacementOf c) :
    directionSignOf c = 1 := by
  rw [directionSignOf, if_pos h]

/-- C5 (amended): for a profile with positive total time, sampling at `t = 0`
yields `v = 0` and `a = directionSign × max(accelMagMps2, 0.05)` — the clamped
acceleration magnitude, not the raw config field; when `totalTime = 0`
sampling at `t = 0` yields the stopped terminal state. -/
theorem C5_initial_state (c : SimulationConfig) :
    (0 < (buildRideProfile c).totalTime →
      (sampleStateAtTime (buildRideProfile c) 0 c).v = 0 ∧
      (sampleStateAtTime (buildRideProfile c) 0 c).a =
        directionSignOf c * max c.accelMagMps2 0.05) ∧
    ((buildRideProfile c).totalTime = 0 →
      (sampleStateAtTime (buildRideProfile c) 0 c).phase = Phase.stopped ∧
      (sampleStateAtTime (buildRideProfile c) 0 c).v = 0 ∧
      (sampleStateAtTime (buildRideProfile c) 0 c).a = 0 ∧
      (sampleStateAtTime (buildRideProfile c) 0 c).y =
        (buildRideProfile c).totalDisplacement) := by
  constructor
  · intro h
    have htA := tAccel_pos_of_totalTime_pos c h
    have hncl : ¬ clamp 0 0 (buildRideProfile c).totalTime ≥
        (buildRideProfile c).totalTime := by
      rw [clamp_zero c]
      exact not_le.mpr h
    constructor
    · rw [sample_of_lt _ _ _ hncl, withForces_v, clamp_zero c,
        sampleSegment_at_zero c htA]
      norm_num
    · rw [sample_of_lt _ _ _ hncl, withForces_a, clamp_zero c,
        sampleSegment_at_zero c htA]
      rfl
  · intro h
    have hcl : clamp 0 0 (buildRideProfile c).totalTime ≥
        (buildRideProfile c).totalTime := by
      rw [clamp_zero c, h]
    refine ⟨?_, ?_, ?_, ?_⟩ <;> rw [sample_of_ge _ _ _ hcl] <;> rfl

/-! ### Concrete configurations for witnesses and counterexamples -/

/-- A one-floor upward ride with `floorHeightM = 1`, `massKg = 1`,
`maxSpeedMps = 1`, `accelMagMps2 = 2`, `gMps2 = 9.81`: trapezoidal. -/
def cTrap : SimulationConfig :=
  ⟨Direction.up, 0, 1, 1, 1, 1, 2, 9.81⟩

/-- The config `cTrap` with start and end floors swapped. -/
def cTrapRev : SimulationConfig :=
  ⟨Direction.down, 1, 0, 1, 1, 1, 2, 9.81⟩

/-- The config `cTrap` with gravity set to 5 instead of 9.81. -/
def cG5 : SimulationConfig :=
  ⟨Direction.up, 0, 1, 1, 1, 1, 2, 5⟩

/-- A same-floor "ride": zero displacement, hence a zero-duration profile. -/
def cSame : SimulationConfig :=
  ⟨Direction.up, 1, 1, 3, 1, 1, 2, 9.81⟩

/-- An upward ride requesting zero acceleration: the engine floors it at 0.05. -/
def cA0 : SimulationConfig :=
  ⟨Direction.up, 0, 1, 3, 1, 4, 0, 9.81⟩

/-- An upward ride with `gMps2 = 1` and `accelMagMps2 = 2`: deceleration
magnitude exceeds the configured gravity. -/
def cBug : SimulationConfig :=
  ⟨Direction.up, 0, 1, 3, 1, 1, 2, 1⟩

lemma cTrap_cond : trapCond cTrap := by
  unfold trapCond dAccelToVmaxOf tToVmaxOf aMagOf vMaxOf distanceOf displacementOf cTrap
  norm_num [max_def]

lemma cTrap_totalTime : (buildRideProfile cTrap).totalTime = 1.5 := by
  rw [build_totalTime]
  have h1 : tAccelOf cTrap = 0.5 := by
    rw [tAccelOf, if_pos cTrap_cond, tToVmaxOf]
    unfold aMagOf vMaxOf cTrap
    norm_num [max_def]
  have h2 : tCruiseOf cTrap = 0.5 := by
    rw [tCruiseOf, if_pos cTrap_cond]
    unfold distanceOf displacementOf dAccelToVmaxOf tToVmaxOf aMagOf vMaxOf cTrap
    norm_num [max_def]
  rw [h1, h2]
  norm_num

lemma cSame_not_cond : ¬ trapCond cSame := by
  unfold trapCond dAccelToVmaxOf tToVmaxOf aMagOf vMaxOf distanceOf displacementOf cSame
  norm_num [max_def]

lemma cSame_totalTime : (buildRideProfile cSame).totalTime = 0 := by
  rw [build_totalTime]
  have h1 : tAccelOf cSame = 0 := by
    rw [tAccelOf, if_neg cSame_not_cond]
    have hd : distanceOf cSame = 0 := by
      unfold distanceOf displacementOf cSame
      norm_num
    rw [hd, zero_div, Real.sqrt_zero]
  have h2 : tCruiseOf cSame = 0 := by rw [tCruiseOf, if_neg cSame_not_cond]
  rw [h1, h2]
  norm_num

lemma cA0_not_cond : ¬ trapCond cA0 := by
  unfold trapCond dAccelToVmaxOf tToVmaxOf aMagOf vMaxOf distanceOf displacementOf cA0
  norm_num [max_def]

lemma cA0_tAccel : tAccelOf cA0 = Real.sqrt 60 := by
  rw [tAccelOf, if_neg cA0_not_cond]
  congr 1
  unfold distanceOf displacementOf aMagOf cA0
  norm_num [max_def]

lemma cA0_totalTime_pos : 0 < (buildRideProfile cA0).totalTime := by
  rw [build_totalTime]
  have h2 : tCruiseOf cA0 = 0 := by rw [tCruiseOf, if_neg cA0_not_cond]
  rw [cA0_tAccel, h2]
  have hs : 0 < Real.sqrt 60 := Real.sqrt_pos.mpr (by norm_num)
  linarith

/-! ### Counterexamples and witnesses for sampler claims -/

/-- Counterexample to C3 as frozen: for the zero-duration profile built from
`cSame` (`totalTime = 0`), querying at `t = −1` yields `phase = stopped` even
though `t ≥ totalTime` is false. -/
theorem C3_counterexample_negative_time :
    (sampleStateAtTime (buildRideProfile cSame) (-1) cSame).phase = Phase.stopped ∧
    ¬ ((-1 : ℝ) ≥ (buildRideProfile cSame).totalTime) := by
  have hcl : clamp (-1) 0 (buildRideProfile cSame).totalTime ≥
      (buildRideProfile cSame).totalTime := by
    rw [cSame_totalTime]
    unfold clamp
    norm_num
  constructor
  · rw [sample_of_ge _ _ _ hcl, withForces_phase]
  · rw [cSame_totalTime]
    norm_num

/-- Witness for C3 (amended), at `cSame` and `t = 0`: `max 0 0 ≥ totalTime`
holds and the sampler returns the stopped terminal state. -/
theorem C3_stopped_iff_witness :
    max 0 (0 : ℝ) ≥ (buildRideProfile cSame).totalTime ∧
    (sampleStateAtTime (buildRideProfile cSame) 0 cSame).phase = Phase.stopped ∧
    (sampleStateAtTime (buildRideProfile cSame) 0 cSame).y =
      (buildRideProfile cSame).totalDisplacement ∧
    (sampleStateAtTime (buildRideProfile cSame) 0 cSame).v = 0 ∧
    (sampleStateAtTime (buildRideProfile cSame) 0 cSame).a = 0 := by
  have hge : max 0 (0 : ℝ) ≥ (buildRideProfile cSame).totalTime := by
    rw [cSame_totalTime]
    norm_num
  obtain ⟨main, -, hterm⟩ := C3_stopped_iff cSame 0
  obtain ⟨hy, hv, ha⟩ := hterm hge
  exact ⟨hge, main.mpr hge, hy, hv, ha⟩

/-- Counterexample to C5 as frozen: for `cA0` (requested acceleration 0), the
profile has positive total time and sampling at `t = 0` returns
`a = 0.05` (the clamped floor), while `±accelMagMps2` would be `0`. -/
theorem C5_counterexample_clamped_accel :
    0 < (buildRideProfile cA0).totalTime ∧
    (sampleStateAtTime (buildRideProfile cA0) 0 cA0).a = 0.05 ∧
    cA0.accelMagMps2 = 0 ∧
    directionSignOf cA0 * cA0.accelMagMps2 = 0 ∧
    (0.05 : ℝ) ≠ 0 := by
  have htA : 0 < tAccelOf cA0 := by
    rw [cA0_tAccel]
    exact Real.sqrt_pos.mpr (by norm_num)
  have hncl : ¬ clamp 0 0 (buildRideProfile cA0).totalTime ≥
      (buildRideProfile cA0).totalTime := by
    rw [clamp_zero cA0]
    exact not_le.mpr cA0_totalTime_pos
  refine ⟨cA0_totalTime_pos, ?_, rfl, ?_, by norm_num⟩
  · rw [sample_of_lt _ _ _ hncl, withForces_a, clamp_zero cA0,
      sampleSegment_at_zero cA0 htA]
    have hds : directionSignOf cA0 = 1 := by
      refine directionSign_pos cA0 ?_
      unfold displacementOf cA0
      norm_num
    show directionSignOf cA0 * aMagOf cA0 = 0.05
    rw [hds]
    unfold aMagOf cA0
    norm_num [max_def]
  · show directionSignOf cA0 * 0 = 0
    exact mul_zero _

/-- Witness for C5 (amended), at `cTrap`: the profile has positive total time
and sampling at `t = 0` yields `v = 0` and `a = directionSign × max(2, 0.05)`. -/
theorem C5_initial_state_witness :
    0 < (buildRideProfile cTrap).totalTime ∧
    (sampleStateAtTime (buildRideProfile cTrap) 0 cTrap).v = 0 ∧
    (sampleStateAtTime (buildRideProfile cTrap) 0 cTrap).a =
      directionSignOf cTrap * max cTrap.accelMagMps2 0.05 := by
  have hpos : 0 < (buildRideProfile cTrap).totalTime := by
    rw [cTrap_totalTime]
    norm_num
  obtain ⟨hv, ha⟩ := (C5_initial_state cTrap).1 hpos
  exact ⟨hpos, hv, ha⟩

/-- Witness for C2, at `cTrap` (trapezoidal branch: `2·dAccelToVmax = 0.5 ≤ 1`). -/
theorem C2_profile_branches_witness :
    2 * (0.5 * aMagOf cTrap * (vMaxOf cTrap / aMagOf cTrap) * (vMaxOf cTrap / aMagOf cTrap))
        ≤ distanceOf cTrap ∧
    (buildRideProfile cTrap).profileType = "trapezoidal" ∧
    ((buildRideProfile cTrap).segments.getD 0 zeroSegment).duration =
      vMaxOf cTrap / aMagOf cTrap ∧
    (buildRideProfile cTrap).vPeak = vMaxOf cTrap := by
  have hcond : 2 * (0.5 * aMagOf cTrap * (vMaxOf cTrap / aMagOf cTrap)
      * (vMaxOf cTrap / aMagOf cTrap)) ≤ distanceOf cTrap := cTrap_cond
  obtain ⟨h1, h2, -, h4⟩ := (C2_profile_branches cTrap).1 hcond
  exact ⟨hcond, h1, h2, h4⟩

/-- Witness for C8, at the concrete pair `cTrap` / `cTrapRev`. -/
theorem C8_reverse_symmetry_witness :
    (buildRideProfile cTrap).totalTime = (buildRideProfile cTrapRev).totalTime ∧
    (buildRideProfile cTrap).vPeak = (buildRideProfile cTrapRev).vPeak ∧
    (buildRideProfile cTrap).totalDisplacement =
      -(buildRideProfile cTrapRev).totalDisplacement :=
  C8_reverse_symmetry cTrap cTrapRev rfl rfl rfl rfl rfl rfl rfl

/-- C10: for any two configs agreeing on every field except `gMps2`, any
profile and any query time, the sampler returns the same normal force, and
that force is `max(0, massKg × (9.81 + a))` with the hardcoded gravity
constant of `withForces`. -/
theorem C10_fn_ignores_config_gravity (p : RideProfile) (t : ℝ)
    (c1 c2 : SimulationConfig)
    (_hdir : c1.direction = c2.direction) (_hs : c1.startFloor = c2.startFloor)
    (_he : c1.endFloor = c2.endFloor) (_hf : c1.floorHeightM = c2.floorHeightM)
    (hm : c1.massKg = c2.massKg) (_hv : c1.maxSpeedMps = c2.maxSpeedMps)
    (_ha : c1.accelMagMps2 = c2.accelMagMps2) :
    (sampleStateAtTime p t c1).fn = (sampleStateAtTime p t c2).fn ∧
    (sampleStateAtTime p t c1).fn =
      max 0 (c1.massKg * (9.81 + (sampleStateAtTime p t c1).a)) := by
  constructor
  · by_cases h : clamp t 0 p.totalTime ≥ p.totalTime
    · rw [sample_of_ge p t c1 h, sample_of_ge p t c2 h, withForces_fn,
        withForces_fn, hm]
    · rw [sample_of_lt p t c1 h, sample_of_lt p t c2 h, withForces_fn,
        withForces_fn, hm]
  · by_cases h : clamp t 0 p.totalTime ≥ p.totalTime
    · rw [sample_of_ge p t c1 h, withForces_fn, withForces_a]
    · rw [sample_of_lt p t c1 h, withForces_fn, withForces_a]

/-- Witness for C10, at `cTrap` versus `cG5` (gravity 9.81 versus 5). -/
theorem C10_fn_ignores_config_gravity_witness :
    cTrap.gMps2 ≠ cG5.gMps2 ∧
    (sampleStateAtTime (buildRideProfile cTrap) 0 cTrap).fn =
      (sampleStateAtTime (buildRideProfile cTrap) 0 cG5).fn := by
  constructor
  · show (9.81 : ℝ) ≠ 5
    norm_num
  · exact (C10_fn_ignores_config_gravity (buildRideProfile cTrap) 0 cTrap cG5
      rfl rfl rfl rfl rfl rfl rfl).1

/-! ### C1: the sampler's normal force uses hardcoded gravity, not the config -/

lemma cBug_cond : trapCond cBug := by
  unfold trapCond dAccelToVmaxOf tToVmaxOf aMagOf vMaxOf distanceOf displacementOf cBug
  norm_num [max_def]

lemma cBug_tAccel : tAccelOf cBug = 0.5 := by
  rw [tAccelOf, if_pos cBug_cond, tToVmaxOf]
  unfold aMagOf vMaxOf cBug
  norm_num [max_def]

lemma cBug_tCruise : tCruiseOf cBug = 2.5 := by
  rw [tCruiseOf, if_pos cBug_cond]
  unfold distanceOf displacementOf dAccelToVmaxOf tToVmaxOf aMagOf vMaxOf cBug
  norm_num [max_def]

lemma cBug_totalTime : (buildRideProfile cBug).totalTime = 3.5 := by
  rw [build_totalTime, cBug_tAccel, cBug_tCruise]
  norm_num

lemma cBug_dirSign : directionSignOf cBug = 1 := by
  refine directionSign_pos cBug ?_
  unfold displacementOf cBug
  norm_num

lemma cBug_aMag : aMagOf cBug = 2 := by
  unfold aMagOf cBug
  norm_num [max_def]

/-- At clamped time 3.25 the sampler selects the deceleration segment of the
`cBug` profile. -/
lemma cBug_sampleSegment :
    sampleSegment (buildRideProfile cBug) 3.25 =
      { phase := Phase.decelerating,
        tStart := tAccelOf cBug + tCruiseOf cBug,
        duration := tAccelOf cBug,
        y0 := directionSignOf cBug * (dAccelOf cBug + dCruiseOf cBug),
        v0 := directionSignOf cBug * vPeakOf cBug,
        a := -directionSignOf cBug * aMagOf cBug } := by
  unfold sampleSegment buildRideProfile
  simp only [findSegment]
  rw [if_neg (by rw [cBug_tAccel]; norm_num),
    if_neg (by rw [cBug_tAccel, cBug_tCruise]; norm_num),
    if_pos (by rw [cBug_tAccel, cBug_tCruise]; norm_num)]
  rfl

/-- C1 (code bug evaluation): the claim — and spec §4.2 step 5 — state
`fn = max(0, massKg × (gMps2 + a))` with `gMps2` taken from the config, and
that `fn = 0` whenever the deceleration magnitude exceeds `gMps2`. For `cBug`
(`gMps2 = 1`, clamped acceleration magnitude 2, mass 1), sampling during
deceleration at `t = 3.25` the code returns `fn = 7.81` — computed from the
hardcoded `9.81` in `withForces` — while the claimed formula evaluates to `0`. -/
theorem C1_hardcoded_gravity_eval :
    (sampleStateAtTime (buildRideProfile cBug) 3.25 cBug).a = -2 ∧
    (sampleStateAtTime (buildRideProfile cBug) 3.25 cBug).fn = 7.81 ∧
    max 0 (cBug.massKg *
      (cBug.gMps2 + (sampleStateAtTime (buildRideProfile cBug) 3.25 cBug).a)) = 0 := by
  have hcl : clamp 3.25 0 (buildRideProfile cBug).totalTime = 3.25 := by
    rw [cBug_totalTime]
    unfold clamp
    norm_num [max_def, min_def]
  have hncl : ¬ clamp 3.25 0 (buildRideProfile cBug).totalTime ≥
      (buildRideProfile cBug).totalTime := by
    rw [hcl, cBug_totalTime]
    norm_num
  have hseg := cBug_sampleSegment
  have ha : (sampleStateAtTime (buildRideProfile cBug) 3.25 cBug).a = -2 := by
    rw [sample_of_lt _ _ _ hncl, withForces_a, hcl, hseg]
    show -directionSignOf cBug * aMagOf cBug = -2
    rw [cBug_dirSign, cBug_aMag]
    norm_num
  refine ⟨ha, ?_, ?_⟩
  · rw [sample_of_lt _ _ _ hncl, withForces_fn, hcl, hseg]
    show max 0 (cBug.massKg * (9.81 + -directionSignOf cBug * aMagOf cBug)) = 7.81
    rw [cBug_dirSign, cBug_aMag]
    show max 0 ((1 : ℝ) * (9.81 + -1 * 2)) = 7.81
    norm_num [max_def]
  · rw [ha]
    show max 0 ((1 : ℝ) * (1 + -2)) = 0
    norm_num [max_def]

end ElevatorSim
